import Mathlib

/-
  Shallow embedding of the cfn-resource-provider library.

  Source layout:
  - `ResourceProvider` (resource-provider module): the single-request
    lifecycle handler for CloudFormation custom resources.
  - `SnsEnvelope` (sns-envelope module): the batch unwrapper that fans an
    SNS event with several embedded requests out into independent
    `ResourceProvider.handle` invocations.

  Modelling conventions:
  - A raw CloudFormation request is untyped JSON at runtime, so every field
    of `Request` that the code may find absent is an `Option`.
  - The mutable `this.response` object is the `Response` record; the mutable
    handler instance state (response plus the `asynchronous` flag) is
    `PState`.
  - The external JSON-schema validator (Ajv) applied to the resource
    properties with the subclass-supplied `request_schema` is abstracted as
    the provider-supplied boolean `valid_props`; the concrete
    `cfn_request_schema` of the source is embedded as the concrete check
    `cfn_request_schema_validate`.
  - A concrete provider subclass supplies `create` / `update` / `delete`
    operations.  Per the extension contract these may mutate the response
    in place (set attributes, set the physical resource id, mark
    success or failure, set no-echo, set the asynchronous flag) and may
    signal abnormal termination; an operation is therefore embedded as a
    function from the request and the current response to a list of
    `OpEffect`, with `throwErr` modelling a thrown exception (subsequent
    effects are discarded, as statements after a throw do not run).
  - JavaScript stringification of a plain object (`"" + obj`) yields
    "[object Object]" and of `undefined` yields "undefined"; the reason
    strings built by the code use these.
-/

namespace CfnRp

/-- Resource properties: a JSON object, modelled as a key-value list.
Its contents only matter through the provider-supplied validator. -/
abbrev Props := List (String × String)

/-- A raw CloudFormation custom-resource request.  Every field is optional
because the incoming event is untyped JSON; `cfn_request_schema_validate`
is what enforces presence. -/
structure Request where
  RequestType : Option String
  ResponseURL : Option String
  StackId : Option String
  RequestId : Option String
  ResourceType : Option String
  LogicalResourceId : Option String
  ResourceProperties : Option Props
  PhysicalResourceId : Option String
  OldResourceProperties : Option Props
deriving DecidableEq, Repr

/-- Response status: the two CloudFormation callback statuses. -/
inductive Status where
  | SUCCESS
  | FAILED
deriving DecidableEq, Repr

/-- The mutable response object built during one handling cycle. -/
structure Response where
  Status : Status
  Reason : Option String
  StackId : Option String
  RequestId : Option String
  LogicalResourceId : Option String
  PhysicalResourceId : String
  Data : Option (List (String × String))
  NoEcho : Option Bool
deriving DecidableEq, Repr

/-- Handler instance state during one cycle: the response under
construction and the asynchronous flag. -/
structure PState where
  response : Response
  asynchronous : Bool
deriving DecidableEq, Repr

/-- Effects an operation (create/update/delete of a concrete provider) may
perform on the handler state; `throwErr` models raising an exception with
the given message (the string the catch clause obtains from it). -/
inductive OpEffect where
  | setAttribute (name value : String)
  | setPhysicalResourceId (id : String)
  | opSuccess (reason : Option String)
  | opFail (reason : String)
  | setNoEcho (b : Bool)
  | setAsynchronous (b : Bool)
  | throwErr (msg : String)
deriving DecidableEq, Repr

/-- A concrete resource provider: its constructor name (from which the
custom resource type name is derived), the properties validator
(`validate(properties, request_schema)` after the coercion hook), and the
three operations. -/
structure Provider where
  name : String
  valid_props : Request → Bool
  createOp : Request → Response → List OpEffect
  updateOp : Request → Response → List OpEffect
  deleteOp : Request → Response → List OpEffect

namespace ResourceProvider

/-- Embeds the JavaScript `String.prototype.replace(pat, "")` used in
`custom_cfn_resource_name`: removes the first occurrence of `pat`. -/
def removeFirstOcc (pat : List Char) : List Char → List Char
  | [] => []
  | c :: rest =>
    if pat.isPrefixOf (c :: rest) then (c :: rest).drop pat.length
    else c :: removeFirstOcc pat rest

/-- `get custom_cfn_resource_name`: `"Custom::" + name.replace("Provider", "")`. -/
def custom_cfn_resource_name (p : Provider) : String :=
  "Custom::" ++ String.mk (removeFirstOcc "Provider".data p.name.data)

/-- `is_supported_resource_type`: the declared resource type of the request
equals the custom resource type name of the provider (an absent
ResourceType compares unequal). -/
def is_supported_resource_type (p : Provider) (req : Request) : Bool :=
  match req.ResourceType with
  | some t => t == custom_cfn_resource_name p
  | none => false

/-- `get request_type`: `RequestType[this.request.RequestType]`, i.e. the
raw string mapped through the RequestType enum; a raw value outside
Create/Update/Delete (or absent) yields undefined (`none`). -/
def request_type (req : Request) : Option String :=
  match req.RequestType with
  | some t =>
    if t == "Create" || t == "Update" || t == "Delete" then some t else none
  | none => none

/-- `set_request`: seeds the default response from the request (status
SUCCESS, identifiers copied, physical resource id from the request when
present, otherwise the empty string). -/
def set_request (req : Request) : Response :=
  { Status := Status.SUCCESS
    Reason := none
    StackId := req.StackId
    RequestId := req.RequestId
    LogicalResourceId := req.LogicalResourceId
    PhysicalResourceId := req.PhysicalResourceId.getD ""
    Data := none
    NoEcho := none }

/-- `fail(reason)`: sets status FAILED; sets the reason only when it is
truthy (a non-empty string). -/
def fail (r : Response) (reason : String) : Response :=
  if reason == "" then { r with Status := Status.FAILED }
  else { r with Status := Status.FAILED, Reason := some reason }

/-- `success(reason?)`: sets status SUCCESS; sets the reason only when one
was supplied (even an empty string counts as supplied). -/
def success (r : Response) (reason : Option String) : Response :=
  match reason with
  | some s => { r with Status := Status.SUCCESS, Reason := some s }
  | none => { r with Status := Status.SUCCESS }

/-- `set_attribute`: writes into the lazily created Data mapping. -/
def setKey : List (String × String) → String → String → List (String × String)
  | [], n, v => [(n, v)]
  | (k, w) :: rest, n, v =>
    if k == n then (n, v) :: rest else (k, w) :: setKey rest n v

/-- `set_attribute(name, value)` on the response. -/
def set_attribute (r : Response) (n v : String) : Response :=
  { r with Data := some (setKey (r.Data.getD []) n v) }

/-- Applies one operation effect to the handler state; the second
component carries the exception message when the effect is a throw. -/
def applyEffect (s : PState) : OpEffect → PState × Option String
  | .setAttribute n v => ({ s with response := set_attribute s.response n v }, none)
  | .setPhysicalResourceId i =>
    ({ s with response := { s.response with PhysicalResourceId := i } }, none)
  | .opSuccess reason => ({ s with response := success s.response reason }, none)
  | .opFail reason => ({ s with response := fail s.response reason }, none)
  | .setNoEcho b => ({ s with response := { s.response with NoEcho := some b } }, none)
  | .setAsynchronous b => ({ s with asynchronous := b }, none)
  | .throwErr m => (s, some m)

/-- Runs the effect list of an operation left to right; a throw aborts the
remainder and surfaces the exception message. -/
def runEffects : List OpEffect → PState → PState × Option String
  | [], s => (s, none)
  | e :: rest, s =>
    match applyEffect s e with
    | (s', none) => runEffects rest s'
    | (s', some m) => (s', some m)

/-- Embeds `validate(this.request, ResourceProvider.cfn_request_schema)`:
the concrete schema requires RequestType, ResponseURL, StackId, RequestId,
ResourceType, LogicalResourceId and ResourceProperties, restricts
RequestType to the enum Create/Update/Delete, and requires ResponseURL to
match the anchored pattern for an http or https URL. -/
def cfn_request_schema_validate (req : Request) : Bool :=
  (match req.RequestType with
   | some t => t == "Create" || t == "Update" || t == "Delete"
   | none => false) &&
  (match req.ResponseURL with
   | some u => "http://".data.isPrefixOf u.data || "https://".data.isPrefixOf u.data
   | none => false) &&
  req.StackId.isSome &&
  req.RequestId.isSome &&
  req.ResourceType.isSome &&
  req.LogicalResourceId.isSome &&
  req.ResourceProperties.isSome

/-- The reason set by `is_supported_request` on a resource-type mismatch
(string concatenation renders an absent ResourceType as "undefined"). -/
def mismatch_reason (p : Provider) (req : Request) : String :=
  "ResourceType " ++ req.ResourceType.getD "undefined" ++
    " not supported by provider " ++ custom_cfn_resource_name p

/-- The reason set by `is_valid_cfn_request` on schema failure: the request
object is stringified by JavaScript as "[object Object]". -/
def invalid_cfn_reason : String :=
  "invalid CloudFormation Request received: [object Object]"

/-- The reason set by `is_valid_request` on properties-schema failure. -/
def invalid_props_reason (req : Request) : String :=
  "invalid resource properties: " ++
    (match req.ResourceProperties with
     | some _ => "[object Object]"
     | none => "undefined")

/-- The short-circuiting validation chain of `execute`:
`is_supported_request() && is_valid_cfn_request() && is_valid_request()`.
Returns whether all checks passed, together with the response as mutated
by the first failing check. -/
def validation (p : Provider) (req : Request) (r : Response) : Bool × Response :=
  if is_supported_resource_type p req then
    if cfn_request_schema_validate req then
      if p.valid_props req then (true, r)
      else (false, fail r (invalid_props_reason req))
    else (false, fail r invalid_cfn_reason)
  else (false, fail r (mismatch_reason p req))

/-- The three-way dispatch of `execute`: Create calls create, Update calls
update, anything else calls delete. -/
def selectOp (p : Provider) (req : Request) : Request → Response → List OpEffect :=
  match request_type req with
  | some "Create" => p.createOp
  | some "Update" => p.updateOp
  | _ => p.deleteOp

/-- The `finally` clause of `execute`: when the physical resource id is
still empty and the status is FAILED and the request type is Create, set
the physical resource id to the sentinel. -/
def applyFinally (req : Request) (r : Response) : Response :=
  if r.PhysicalResourceId == "" && r.Status == Status.FAILED then
    if request_type req == some "Create" then
      { r with PhysicalResourceId := "could-not-create" }
    else r
  else r

/-- `execute()`: validation chain, dispatch (or the Delete bypass when
validation failed), the catch clause converting an exception into a FAILED
status when the status was still SUCCESS, and the finally clause. -/
def execute (p : Provider) (req : Request) (s : PState) : PState :=
  let v := validation p req s.response
  let step :=
    if v.1 then runEffects (selectOp p req req v.2) { s with response := v.2 }
    else
      if req.RequestType.isSome && (request_type req == some "Delete") then
        ({ s with response := success v.2 none }, (none : Option String))
      else ({ s with response := v.2 }, none)
  let afterCatch :=
    match step.2 with
    | some e =>
      if step.1.response.Status == Status.SUCCESS then
        { step.1 with response := fail step.1.response e }
      else step.1
    | none => step.1
  { afterCatch with response := applyFinally req afterCatch.response }

/-- `substring(0, n)`: the first `n` characters of a string. -/
def takeChars (s : String) (n : Nat) : String :=
  String.mk (s.data.take n)

/-- `truncate_response()`: an absent or empty reason is left alone; a
reason longer than 200 characters is replaced by its first 200 characters
followed by the ellipsis marker. -/
def truncate_response (r : Response) : Response :=
  match r.Reason with
  | none => r
  | some s =>
    if s == "" then r
    else if 200 < s.length then
      { r with Reason := some (takeChars s 200 ++ "...") }
    else r

/-- The handler state after `set_request` and `execute` for one cycle. -/
def handleState (p : Provider) (req : Request) : PState :=
  execute p req { response := set_request req, asynchronous := false }

/-- `handle(request, context)`: seeds the response, executes, and unless
the asynchronous flag was set, delivers via `send_response` (whose first
step, `truncate_response`, mutates the response in place); returns the
response object. -/
def handle (p : Provider) (req : Request) : Response :=
  let s := handleState p req
  if s.asynchronous then s.response else truncate_response s.response

end ResourceProvider

/-- One record of an SNS event: its optional nested Sns object. -/
structure SnsObj where
  Message : Option String
deriving DecidableEq, Repr

/-- A record of the Records array: may lack the Sns object. -/
structure SnsRecord where
  Sns : Option SnsObj
deriving DecidableEq, Repr

/-- A raw SNS batch event: may lack the Records array. -/
structure SNSEvent where
  Records : Option (List SnsRecord)
deriving DecidableEq, Repr

namespace SnsEnvelope

/-- Embeds the Ajv check against SNS_SCHEMA: the event must have a Records
array and every record must have an Sns object with a Message string. -/
def sns_shape_valid (e : SNSEvent) : Bool :=
  match e.Records with
  | none => false
  | some recs =>
    recs.all fun r =>
      match r.Sns with
      | some s => s.Message.isSome
      | none => false

/-- `is_valid_sns_request(event)`: validates the shape; on failure it calls
`provider.fail` with a diagnostic reason (the event stringifies as
"[object Object]").  Returns the validity and the (possibly mutated)
response of the wrapped provider. -/
def is_valid_sns_request (e : SNSEvent) (presp : Response) : Bool × Response :=
  if sns_shape_valid e then (true, presp)
  else
    (false,
     ResourceProvider.fail presp
       "invalid CloudFormation Request received: [object Object]")

/-- The message the thrown Error carries when the batch shape is invalid. -/
def sns_error_msg : String :=
  "The provided event is not compliant with the SNS schema."

/-- The embedded message string of one record (never defaulted on the
valid path, where the shape check guarantees presence). -/
def recordMessage (r : SnsRecord) : String :=
  ((r.Sns.getD { Message := none }).Message).getD ""

/-- The for-loop of `SnsEnvelope.handle`: one `provider.handle` call per
record, each message parsed into a Request by the JSON parser `parse`,
results appended in order. -/
def unwrapLoop (p : Provider) (parse : String → Request) :
    List SnsRecord → List Response
  | [] => []
  | r :: rest =>
    ResourceProvider.handle p (parse (recordMessage r)) :: unwrapLoop p parse rest

/-- `SnsEnvelope.handle(event, context)`: validates the batch shape; on
failure marks the wrapped provider response as FAILED and throws an Error
(`Except.error`); on success returns the responses of the per-record
handler invocations in input order.  `presp` is the wrapped provider
response entering the call; the first component is the provider response
after the call. -/
def handle (p : Provider) (parse : String → Request) (e : SNSEvent)
    (presp : Response) : Response × Except String (List Response) :=
  let v := is_valid_sns_request e presp
  if v.1 then
    let resps := unwrapLoop p parse (e.Records.getD [])
    (resps.getLastD v.2, Except.ok resps)
  else (v.2, Except.error sns_error_msg)

end SnsEnvelope

/-! ### Concrete fixtures

Concrete providers and requests used to evaluate the model on explicit
inputs: the provider with the default (source-supplied) operations, and the
request of the repository jest test. -/

/-- A provider with the default operations of the source class: create and
update fail with a "not implemented" reason, delete succeeds with one. -/
def sourceDefaultProvider (n : String) (vp : Request → Bool) : Provider :=
  { name := n
    valid_props := vp
    createOp := fun _ _ => [OpEffect.opFail ("create not implemented by " ++ n)]
    updateOp := fun _ _ => [OpEffect.opFail ("update not implemented by " ++ n)]
    deleteOp := fun _ _ => [OpEffect.opSuccess (some ("delete not implemented by " ++ n))] }

/-- Properties validator that accepts everything (the default schema). -/
def vpTrue : Request → Bool := fun _ => true

/-- Properties validator that rejects everything. -/
def vpFalse : Request → Bool := fun _ => false

/-- The Create request of the repository jest test. -/
def baseRequest : Request :=
  { RequestType := some "Create"
    ResponseURL := some "https://response.url"
    StackId := some "arn:aws:cloudformation:us-east-1:1234:stack/my-stack/1234"
    RequestId := some "1234"
    ResourceType := some "Custom::Resource"
    LogicalResourceId := some "MyResource"
    ResourceProperties := some [("Property", "Value")]
    PhysicalResourceId := none
    OldResourceProperties := none }

/-- A 201-character reason, exceeding the 200-character truncation bound. -/
def longReason : String := String.mk (List.replicate 201 'a')

/-- Provider whose create fails with the 201-character reason. -/
def longFailProvider : Provider :=
  { sourceDefaultProvider "ResourceProvider" vpTrue with
    createOp := fun _ _ => [OpEffect.opFail longReason] }

/-- Provider whose create throws an exception. -/
def throwingProvider : Provider :=
  { sourceDefaultProvider "ResourceProvider" vpTrue with
    createOp := fun _ _ =>
      [OpEffect.setAttribute "Arn" "a", OpEffect.throwErr "Error: boom",
       OpEffect.opSuccess (some "unreachable")] }

/-- Provider with the same name as the default one but operations that
would leave loud traces if they ever ran; used to observe that operations
are not invoked on validation failure. -/
def markerOpsProvider : Provider :=
  { sourceDefaultProvider "ResourceProvider" vpFalse with
    createOp := fun _ _ => [OpEffect.opSuccess (some "create ran")]
    updateOp := fun _ _ => [OpEffect.opSuccess (some "update ran")]
    deleteOp := fun _ _ => [OpEffect.opFail "delete ran"] }

/-- A two-record SNS event with embedded messages "m1" and "m2". -/
def snsEventTwo : SNSEvent :=
  { Records := some [{ Sns := some { Message := some "m1" } },
                     { Sns := some { Message := some "m2" } }] }

/-- An SNS event with no Records field at all. -/
def snsEventNoRecords : SNSEvent := { Records := none }

/-- A concrete stand-in for JSON.parse: maps a message string to the jest
request with that string as its RequestId. -/
def parseFix : String → Request :=
  fun s => { baseRequest with RequestId := some s }

/-- The provider named XProvider (custom resource type "Custom::X"). -/
def xProvider : Provider := sourceDefaultProvider "XProvider" vpTrue

/-- A Delete request whose resource type does not match "Custom::X". -/
def mismatchDeleteRequest : Request :=
  { baseRequest with RequestType := some "Delete", ResourceType := some "Custom::Y" }

/-- The default provider of the repository jest test. -/
def rProvider : Provider := sourceDefaultProvider "ResourceProvider" vpTrue

/-- Same name as rProvider but with marker operations, to observe that
operations are never invoked on validation failure. -/
def rProviderMarker : Provider :=
  { rProvider with
    createOp := fun _ _ => [OpEffect.opSuccess (some "create ran")]
    updateOp := fun _ _ => [OpEffect.opSuccess (some "update ran")]
    deleteOp := fun _ _ => [OpEffect.opFail "delete ran"] }

/-- Same name as xProvider but with marker operations. -/
def xProviderMarker : Provider :=
  { xProvider with
    createOp := fun _ _ => [OpEffect.opSuccess (some "create ran")]
    updateOp := fun _ _ => [OpEffect.opSuccess (some "update ran")]
    deleteOp := fun _ _ => [OpEffect.opFail "delete ran"] }

/-- The default-named provider whose properties validator rejects all. -/
def vpFalseProvider : Provider := sourceDefaultProvider "ResourceProvider" vpFalse

/-- A Delete request for the default provider (properties judged invalid
by vpFalseProvider). -/
def deleteRequest : Request := { baseRequest with RequestType := some "Delete" }

/-- A request with matching resource type but a callback address failing
the http(s) pattern of the CloudFormation request schema. -/
def badUrlRequest : Request := { baseRequest with ResponseURL := some "ftp://callback" }

/-- A response carrying the 201-character reason. -/
def longReasonResponse : Response :=
  { ResourceProvider.set_request baseRequest with Reason := some longReason }

/-! ## Helper lemmas

Field-preservation facts about the small response mutators, used to track
the identifiers and the status through a handling cycle. -/

namespace ResourceProvider

theorem fail_Status (r : Response) (m : String) :
    (fail r m).Status = Status.FAILED := by
  unfold fail; split <;> rfl

theorem fail_StackId (r : Response) (m : String) :
    (fail r m).StackId = r.StackId := by
  unfold fail; split <;> rfl

theorem fail_RequestId (r : Response) (m : String) :
    (fail r m).RequestId = r.RequestId := by
  unfold fail; split <;> rfl

theorem fail_LogicalResourceId (r : Response) (m : String) :
    (fail r m).LogicalResourceId = r.LogicalResourceId := by
  unfold fail; split <;> rfl

theorem fail_PhysicalResourceId (r : Response) (m : String) :
    (fail r m).PhysicalResourceId = r.PhysicalResourceId := by
  unfold fail; split <;> rfl

theorem fail_Reason_of_ne (r : Response) (m : String) (h : m ≠ "") :
    (fail r m).Reason = some m := by
  unfold fail
  rw [if_neg (by simpa using h)]

theorem success_Status (r : Response) (o : Option String) :
    (success r o).Status = Status.SUCCESS := by
  cases o <;> rfl

theorem success_StackId (r : Response) (o : Option String) :
    (success r o).StackId = r.StackId := by
  cases o <;> rfl

theorem success_RequestId (r : Response) (o : Option String) :
    (success r o).RequestId = r.RequestId := by
  cases o <;> rfl

theorem success_LogicalResourceId (r : Response) (o : Option String) :
    (success r o).LogicalResourceId = r.LogicalResourceId := by
  cases o <;> rfl

theorem success_PhysicalResourceId (r : Response) (o : Option String) :
    (success r o).PhysicalResourceId = r.PhysicalResourceId := by
  cases o <;> rfl

theorem success_none_Reason (r : Response) :
    (success r none).Reason = r.Reason := rfl

theorem truncate_Status (r : Response) :
    (truncate_response r).Status = r.Status := by
  unfold truncate_response; repeat' split
  all_goals rfl

theorem truncate_StackId (r : Response) :
    (truncate_response r).StackId = r.StackId := by
  unfold truncate_response; repeat' split
  all_goals rfl

theorem truncate_RequestId (r : Response) :
    (truncate_response r).RequestId = r.RequestId := by
  unfold truncate_response; repeat' split
  all_goals rfl

theorem truncate_LogicalResourceId (r : Response) :
    (truncate_response r).LogicalResourceId = r.LogicalResourceId := by
  unfold truncate_response; repeat' split
  all_goals rfl

theorem truncate_PhysicalResourceId (r : Response) :
    (truncate_response r).PhysicalResourceId = r.PhysicalResourceId := by
  unfold truncate_response; repeat' split
  all_goals rfl

theorem applyFinally_Status (req : Request) (r : Response) :
    (applyFinally req r).Status = r.Status := by
  unfold applyFinally; repeat' split
  all_goals rfl

theorem applyFinally_Reason (req : Request) (r : Response) :
    (applyFinally req r).Reason = r.Reason := by
  unfold applyFinally; repeat' split
  all_goals rfl

theorem applyFinally_StackId (req : Request) (r : Response) :
    (applyFinally req r).StackId = r.StackId := by
  unfold applyFinally; repeat' split
  all_goals rfl

theorem applyFinally_RequestId (req : Request) (r : Response) :
    (applyFinally req r).RequestId = r.RequestId := by
  unfold applyFinally; repeat' split
  all_goals rfl

theorem applyFinally_LogicalResourceId (req : Request) (r : Response) :
    (applyFinally req r).LogicalResourceId = r.LogicalResourceId := by
  unfold applyFinally; repeat' split
  all_goals rfl

theorem validation_StackId (p : Provider) (req : Request) (r : Response) :
    ((validation p req r).2).StackId = r.StackId := by
  unfold validation; repeat' split
  all_goals simp [fail_StackId]

theorem validation_RequestId (p : Provider) (req : Request) (r : Response) :
    ((validation p req r).2).RequestId = r.RequestId := by
  unfold validation; repeat' split
  all_goals simp [fail_RequestId]

theorem validation_LogicalResourceId (p : Provider) (req : Request) (r : Response) :
    ((validation p req r).2).LogicalResourceId = r.LogicalResourceId := by
  unfold validation; repeat' split
  all_goals simp [fail_LogicalResourceId]

theorem runEffects_ids (effs : List OpEffect) (s : PState) :
    ((runEffects effs s).1.response.StackId = s.response.StackId) ∧
    ((runEffects effs s).1.response.RequestId = s.response.RequestId) ∧
    ((runEffects effs s).1.response.LogicalResourceId = s.response.LogicalResourceId) := by
  induction effs generalizing s with
  | nil => exact ⟨rfl, rfl, rfl⟩
  | cons e rest ih =>
    cases e with
    | setAttribute n v =>
      simpa [runEffects, applyEffect, set_attribute] using ih _
    | setPhysicalResourceId i =>
      simpa [runEffects, applyEffect] using ih _
    | opSuccess o =>
      have := ih { s with response := success s.response o }
      simpa [runEffects, applyEffect, success_StackId, success_RequestId,
        success_LogicalResourceId] using this
    | opFail m =>
      have := ih { s with response := fail s.response m }
      simpa [runEffects, applyEffect, fail_StackId, fail_RequestId,
        fail_LogicalResourceId] using this
    | setNoEcho b =>
      simpa [runEffects, applyEffect] using ih _
    | setAsynchronous b =>
      simpa [runEffects, applyEffect] using ih _
    | throwErr m =>
      exact ⟨rfl, rfl, rfl⟩

theorem execute_ids (p : Provider) (req : Request) (s : PState) :
    ((execute p req s).response.StackId = s.response.StackId) ∧
    ((execute p req s).response.RequestId = s.response.RequestId) ∧
    ((execute p req s).response.LogicalResourceId = s.response.LogicalResourceId) := by
  have hv1 := validation_StackId p req s.response
  have hv2 := validation_RequestId p req s.response
  have hv3 := validation_LogicalResourceId p req s.response
  unfold execute
  rcases h : validation p req s.response with ⟨vb, vr⟩
  rw [h] at hv1 hv2 hv3
  dsimp only at hv1 hv2 hv3
  cases vb with
  | false =>
    by_cases hb : (req.RequestType.isSome && (request_type req == some "Delete")) = true
    · simp [h, hb, applyFinally_StackId, applyFinally_RequestId,
        applyFinally_LogicalResourceId, success_StackId, success_RequestId,
        success_LogicalResourceId, hv1, hv2, hv3]
    · simp [h, hb, applyFinally_StackId, applyFinally_RequestId,
        applyFinally_LogicalResourceId, hv1, hv2, hv3]
  | true =>
    rcases hrun : runEffects (selectOp p req req vr) { s with response := vr } with ⟨s', exn⟩
    have hids := runEffects_ids (selectOp p req req vr) { s with response := vr }
    rw [hrun] at hids
    dsimp only at hids
    cases exn with
    | none =>
      simp [h, hrun, applyFinally_StackId, applyFinally_RequestId,
        applyFinally_LogicalResourceId, hids.1, hids.2.1, hids.2.2, hv1, hv2, hv3]
    | some e =>
      by_cases hst : (s'.response.Status == Status.SUCCESS) = true
      · simp [h, hrun, hst, applyFinally_StackId, applyFinally_RequestId,
          applyFinally_LogicalResourceId, fail_StackId, fail_RequestId,
          fail_LogicalResourceId, hids.1, hids.2.1, hids.2.2, hv1, hv2, hv3]
      · simp [h, hrun, hst, applyFinally_StackId, applyFinally_RequestId,
          applyFinally_LogicalResourceId, hids.1, hids.2.1, hids.2.2, hv1, hv2, hv3]

end ResourceProvider

namespace ResourceProvider

theorem handle_of_validation_false (p : Provider) (req : Request)
    (hv : (validation p req (set_request req)).1 = false) :
    handle p req =
      truncate_response (applyFinally req
        (if req.RequestType.isSome && (request_type req == some "Delete")
         then success (validation p req (set_request req)).2 none
         else (validation p req (set_request req)).2)) := by
  unfold handle handleState execute
  rcases h : validation p req (set_request req) with ⟨vb, vr⟩
  rw [h] at hv
  dsimp only at hv
  subst hv
  by_cases hb : (req.RequestType.isSome && (request_type req == some "Delete")) = true
  · simp [h, hb]
  · simp [h, hb]

theorem validation_false_facts (p : Provider) (req : Request) (r : Response)
    (h : (validation p req r).1 = false) :
    (validation p req r).2.Status = Status.FAILED ∧
    (validation p req r).2.PhysicalResourceId = r.PhysicalResourceId := by
  unfold validation at h ⊢
  by_cases h1 : is_supported_resource_type p req = true
  · by_cases h2 : cfn_request_schema_validate req = true
    · by_cases h3 : p.valid_props req = true
      · rw [if_pos h1, if_pos h2, if_pos h3] at h
        exact absurd h (by simp)
      · rw [if_pos h1, if_pos h2, if_neg h3]
        exact ⟨fail_Status _ _, fail_PhysicalResourceId _ _⟩
    · rw [if_pos h1, if_neg h2]
      exact ⟨fail_Status _ _, fail_PhysicalResourceId _ _⟩
  · rw [if_neg h1]
    exact ⟨fail_Status _ _, fail_PhysicalResourceId _ _⟩

theorem handle_Status_eq (p : Provider) (req : Request) :
    (handle p req).Status = (handleState p req).response.Status := by
  unfold handle
  by_cases ha : (handleState p req).asynchronous = true
  · simp only [ha, if_true]
  · simp only [ha, if_false, Bool.false_eq_true, truncate_Status]

theorem handle_pid_eq (p : Provider) (req : Request) :
    (handle p req).PhysicalResourceId = (handleState p req).response.PhysicalResourceId := by
  unfold handle
  by_cases ha : (handleState p req).asynchronous = true
  · simp only [ha, if_true]
  · simp only [ha, if_false, Bool.false_eq_true, truncate_PhysicalResourceId]

theorem truncate_Reason_short (r : Response) (s : String)
    (h : r.Reason = some s) (hl : s.length ≤ 200) :
    (truncate_response r).Reason = some s := by
  unfold truncate_response
  rw [h]
  dsimp only
  by_cases hs : (s == "") = true
  · rw [if_pos hs]; exact h
  · rw [if_neg hs, if_neg (Nat.not_lt.mpr hl)]; exact h

theorem applyFinally_create_pid (req : Request) (r : Response)
    (hc : request_type req = some "Create")
    (hf : (applyFinally req r).Status = Status.FAILED) :
    (applyFinally req r).PhysicalResourceId ≠ "" := by
  unfold applyFinally at hf ⊢
  by_cases h1 : (r.PhysicalResourceId == "" && r.Status == Status.FAILED) = true
  · rw [if_pos h1] at hf ⊢
    simp only [hc]
    rw [if_pos (by simp)]
    simp
  · rw [if_neg h1] at hf ⊢
    intro hpid
    exact h1 (by simp [hpid, hf])

theorem handleState_response_shape (p : Provider) (req : Request) :
    ∃ r, (handleState p req).response = applyFinally req r := by
  unfold handleState execute
  exact ⟨_, rfl⟩

theorem custom_name_congr (p q : Provider) (h : q.name = p.name) :
    custom_cfn_resource_name q = custom_cfn_resource_name p := by
  unfold custom_cfn_resource_name
  rw [h]

theorem is_supported_congr (p q : Provider) (req : Request) (h : q.name = p.name) :
    is_supported_resource_type q req = is_supported_resource_type p req := by
  unfold is_supported_resource_type
  cases req.ResourceType with
  | none => rfl
  | some t => rw [custom_name_congr p q h]

theorem mismatch_reason_congr (p q : Provider) (req : Request) (h : q.name = p.name) :
    mismatch_reason q req = mismatch_reason p req := by
  unfold mismatch_reason
  rw [custom_name_congr p q h]

theorem mismatch_reason_ne (p : Provider) (req : Request) :
    mismatch_reason p req ≠ "" := by
  unfold mismatch_reason
  intro hc
  have hlen := congrArg String.length hc
  rw [String.length_append, String.length_append, String.length_append] at hlen
  have h13 : ("ResourceType " : String).length = 13 := rfl
  have h0 : ("" : String).length = 0 := rfl
  omega

theorem validation_of_mismatch (p : Provider) (req : Request) (r : Response)
    (h : is_supported_resource_type p req = false) :
    validation p req r = (false, fail r (mismatch_reason p req)) := by
  unfold validation
  rw [if_neg (by simp [h])]

theorem validation_of_cfn_invalid (p : Provider) (req : Request) (r : Response)
    (h1 : is_supported_resource_type p req = true)
    (h2 : cfn_request_schema_validate req = false) :
    validation p req r = (false, fail r invalid_cfn_reason) := by
  unfold validation
  rw [if_pos h1, if_neg (by simp [h2])]

theorem bypass_false_of_not_delete (req : Request)
    (h : req.RequestType ≠ some "Delete") :
    (req.RequestType.isSome && (request_type req == some "Delete")) = false := by
  unfold request_type
  cases hr : req.RequestType with
  | none => rfl
  | some t =>
    have ht : t ≠ "Delete" := by
      intro hteq
      subst hteq
      exact h hr
    dsimp only
    by_cases hd : (t == "Create" || t == "Update" || t == "Delete") = true
    · rw [if_pos hd]
      simp [ht]
    · rw [if_neg hd]
      rfl

theorem bypass_true_of_delete (req : Request)
    (h : req.RequestType = some "Delete") :
    (req.RequestType.isSome && (request_type req == some "Delete")) = true := by
  have hrt : request_type req = some "Delete" := by
    unfold request_type
    rw [h]
    rfl
  rw [h, hrt]
  rfl

theorem handle_reason_of_fail (p : Provider) (req : Request) (m : String)
    (hval : validation p req (set_request req) = (false, fail (set_request req) m))
    (hne : m ≠ "") (hlen : m.length ≤ 200) :
    (handle p req).Reason = some m := by
  have hv1 : (validation p req (set_request req)).1 = false := by rw [hval]
  rw [handle_of_validation_false p req hv1]
  refine truncate_Reason_short _ _ ?_ hlen
  by_cases hb : (req.RequestType.isSome && (request_type req == some "Delete")) = true
  · rw [if_pos hb, applyFinally_Reason, success_none_Reason, hval]
    exact fail_Reason_of_ne _ _ hne
  · rw [if_neg hb, applyFinally_Reason, hval]
    exact fail_Reason_of_ne _ _ hne

theorem handle_failed_of_fail (p : Provider) (req : Request)
    (hv1 : (validation p req (set_request req)).1 = false)
    (hnd : req.RequestType ≠ some "Delete") :
    (handle p req).Status = Status.FAILED := by
  rw [handle_of_validation_false p req hv1, bypass_false_of_not_delete req hnd]
  simp only [Bool.false_eq_true, if_false, truncate_Status, applyFinally_Status]
  exact (validation_false_facts p req (set_request req) hv1).1

theorem handle_success_of_fail_delete (p : Provider) (req : Request)
    (hv1 : (validation p req (set_request req)).1 = false)
    (hd : req.RequestType = some "Delete") :
    (handle p req).Status = Status.SUCCESS := by
  rw [handle_of_validation_false p req hv1, bypass_true_of_delete req hd]
  simp only [if_true, truncate_Status, applyFinally_Status, success_Status]

theorem validation_of_all_valid (p : Provider) (req : Request) (r : Response)
    (h1 : is_supported_resource_type p req = true)
    (h2 : cfn_request_schema_validate req = true)
    (h3 : p.valid_props req = true) :
    validation p req r = (true, r) := by
  unfold validation
  rw [if_pos h1, if_pos h2, if_pos h3]

theorem takeChars_length (s : String) (n : Nat) :
    (takeChars s n).length = min n s.length := by
  unfold takeChars
  rw [String.length_mk, List.length_take]
  rfl

theorem truncate_long (r : Response) (s : String)
    (h : r.Reason = some s) (hl : 200 < s.length) :
    (truncate_response r).Reason = some (takeChars s 200 ++ "...") := by
  have hs : (s == "") = false := by
    have hne : s ≠ "" := by
      intro hc
      subst hc
      exact absurd hl (by decide)
    simp [hne]
  unfold truncate_response
  rw [h]
  dsimp only
  rw [if_neg (by simp [hs]), if_pos hl]

theorem truncate_keep_short (r : Response)
    (hl : (r.Reason.getD "").length ≤ 200) :
    (truncate_response r).Reason = r.Reason := by
  cases h : r.Reason with
  | none =>
    unfold truncate_response
    rw [h]
    dsimp only
    exact h
  | some s =>
    rw [h] at hl
    rw [truncate_Reason_short r s h hl]

theorem truncate_len_le_203 (r : Response) :
    ((truncate_response r).Reason.getD "").length ≤ 203 := by
  by_cases hl : (r.Reason.getD "").length ≤ 200
  · rw [truncate_keep_short r hl]
    omega
  · cases h : r.Reason with
    | none =>
      rw [h] at hl
      exact absurd (by decide : (((none : Option String)).getD "").length ≤ 200) hl
    | some s =>
      rw [h] at hl
      have hlt : 200 < s.length := by
        simp only [Option.getD] at hl
        omega
      rw [truncate_long r s h hlt]
      simp only [Option.getD]
      rw [String.length_append, takeChars_length]
      have h3 : ("..." : String).length = 3 := rfl
      omega

theorem handle_Reason_short (p : Provider) (req : Request) (s : String)
    (hs : (handleState p req).response.Reason = some s) (hl : s.length ≤ 200) :
    (handle p req).Reason = some s := by
  unfold handle
  by_cases ha : (handleState p req).asynchronous = true
  · simp only [ha, if_true]
    exact hs
  · simp only [ha, Bool.false_eq_true, if_false]
    exact truncate_Reason_short _ _ hs hl

end ResourceProvider

/-! ## Claim theorems -/

open ResourceProvider

/-- C1: for every request whose operation kind is Delete and whose
validation fails in any of the three validation steps (resource type,
CloudFormation request schema, properties schema), handle returns a
Response with status SUCCESS, overriding the validation failure. -/
theorem claim1_delete_bypass (p : Provider) (req : Request)
    (hdel : req.RequestType = some "Delete")
    (hfail : is_supported_resource_type p req = false ∨
             cfn_request_schema_validate req = false ∨
             p.valid_props req = false) :
    (handle p req).Status = Status.SUCCESS := by
  have hv : (validation p req (set_request req)).1 = false := by
    unfold validation
    rcases hfail with h | h | h <;> simp [h] <;> (repeat' split) <;> rfl
  have hrt : request_type req = some "Delete" := by
    unfold request_type
    rw [hdel]
    rfl
  have hb : (req.RequestType.isSome && (request_type req == some "Delete")) = true := by
    rw [hdel, hrt]; rfl
  rw [handle_of_validation_false p req hv, hb]
  simp only [if_true, truncate_Status, applyFinally_Status, success_Status]

/-- C2: for every Create request, a handling cycle that ends with status
FAILED never leaves the physical resource identifier empty; in particular
a Create request with an empty (or absent) incoming physical resource
identifier whose properties fail schema validation yields status FAILED
with the sentinel physical resource identifier "could-not-create". -/
theorem claim2_create_sentinel (p : Provider) (req : Request)
    (hct : req.RequestType = some "Create") :
    ((handle p req).Status = Status.FAILED → (handle p req).PhysicalResourceId ≠ "") ∧
    (req.PhysicalResourceId.getD "" = "" → p.valid_props req = false →
      (handle p req).Status = Status.FAILED ∧
      (handle p req).PhysicalResourceId = "could-not-create") := by
  have hrt : request_type req = some "Create" := by
    unfold request_type
    rw [hct]
    rfl
  constructor
  · intro hfail
    obtain ⟨r, hr⟩ := handleState_response_shape p req
    rw [handle_Status_eq, hr] at hfail
    rw [handle_pid_eq, hr]
    exact applyFinally_create_pid req r hrt hfail
  · intro hpid hvp
    have hv : (validation p req (set_request req)).1 = false := by
      unfold validation
      by_cases h1 : is_supported_resource_type p req = true
      · by_cases h2 : cfn_request_schema_validate req = true
        · simp [h1, h2, hvp]
        · simp [h1, h2]
      · simp [h1]
    have hfacts := validation_false_facts p req (set_request req) hv
    have hpid0 : (validation p req (set_request req)).2.PhysicalResourceId = "" := by
      rw [hfacts.2]
      show req.PhysicalResourceId.getD "" = ""
      exact hpid
    have hb : (req.RequestType.isSome && (request_type req == some "Delete")) = false := by
      rw [hct, hrt]; rfl
    rw [handle_of_validation_false p req hv, hb]
    simp only [Bool.false_eq_true, if_false]
    constructor
    · rw [truncate_Status, applyFinally_Status, hfacts.1]
    · rw [truncate_PhysicalResourceId]
      unfold applyFinally
      rw [if_pos (by simp [hpid0, hfacts.1]), if_pos (by simp [hrt])]

/-- C3 counterexample: the claim states that a mismatched resource-type
name always yields status Failed, but for a Delete request with a
mismatched resource type the delete-bypass overrides the status to
SUCCESS (xProvider declares "Custom::X", the request declares
"Custom::Y"). -/
theorem claim3_cex :
    is_supported_resource_type xProvider mismatchDeleteRequest = false ∧
    (handle xProvider mismatchDeleteRequest).Status = Status.SUCCESS := by
  exact ⟨by decide, by decide⟩

/-- C3 (amended): for every request whose declared resource-type name
differs from the provider custom resource-type name, create/update/delete
are never invoked (the outcome does not depend on the operations or the
properties validator, witnessed by any same-named provider q yielding the
identical response); the reason is set to
"ResourceType X not supported by provider Y" (delivered verbatim when it
fits the 200-character truncation bound); the status is Failed unless the
operation kind is Delete, in which case the delete-bypass overrides it to
Success. -/
theorem claim3_mismatch (p q : Provider) (req : Request)
    (hn : q.name = p.name)
    (hmm : is_supported_resource_type p req = false) :
    handle q req = handle p req ∧
    (req.RequestType ≠ some "Delete" → (handle p req).Status = Status.FAILED) ∧
    ((mismatch_reason p req).length ≤ 200 →
        (handle p req).Reason = some (mismatch_reason p req)) ∧
    (req.RequestType = some "Delete" → (handle p req).Status = Status.SUCCESS) := by
  have hmq : is_supported_resource_type q req = false := by
    rw [is_supported_congr p q req hn]
    exact hmm
  have hvp := validation_of_mismatch p req (set_request req) hmm
  have hvq := validation_of_mismatch q req (set_request req) hmq
  have hv1p : (validation p req (set_request req)).1 = false := by rw [hvp]
  have hv1q : (validation q req (set_request req)).1 = false := by rw [hvq]
  refine ⟨?_, ?_, ?_, ?_⟩
  · rw [handle_of_validation_false q req hv1q, handle_of_validation_false p req hv1p,
      hvq, hvp, mismatch_reason_congr p q req hn]
  · intro hnd
    exact handle_failed_of_fail p req hv1p hnd
  · intro hlen
    exact handle_reason_of_fail p req _ hvp (mismatch_reason_ne p req) hlen
  · intro hdel
    exact handle_success_of_fail_delete p req hv1p hdel

/-- C10: with a matching resource type but a request failing the
CloudFormation request schema (required fields, RequestType limited to
Create/Update/Delete, ResponseURL matching an http(s) URL), the handler
sets status Failed with reason "invalid CloudFormation Request received: "
followed by the request (JavaScript stringification of the request
object), invokes no operation and consults no properties validator (any
same-named provider q yields the identical response), and the
delete-bypass rule applies to this failure as well. -/
theorem claim10_cfn_schema_check (p q : Provider) (req : Request)
    (hn : q.name = p.name)
    (hsup : is_supported_resource_type p req = true)
    (hcfn : cfn_request_schema_validate req = false) :
    handle q req = handle p req ∧
    (req.RequestType ≠ some "Delete" →
        (handle p req).Status = Status.FAILED ∧
        (handle p req).Reason = some invalid_cfn_reason) ∧
    (req.RequestType = some "Delete" →
        (handle p req).Status = Status.SUCCESS ∧
        (handle p req).Reason = some invalid_cfn_reason) := by
  have hsupq : is_supported_resource_type q req = true := by
    rw [is_supported_congr p q req hn]
    exact hsup
  have hvp := validation_of_cfn_invalid p req (set_request req) hsup hcfn
  have hvq := validation_of_cfn_invalid q req (set_request req) hsupq hcfn
  have hv1p : (validation p req (set_request req)).1 = false := by rw [hvp]
  have hv1q : (validation q req (set_request req)).1 = false := by rw [hvq]
  have hne : invalid_cfn_reason ≠ "" := by decide
  have hlen : invalid_cfn_reason.length ≤ 200 := by decide
  refine ⟨?_, fun hnd => ⟨?_, ?_⟩, fun hdel => ⟨?_, ?_⟩⟩
  · rw [handle_of_validation_false q req hv1q, handle_of_validation_false p req hv1p,
      hvq, hvp]
  · exact handle_failed_of_fail p req hv1p hnd
  · exact handle_reason_of_fail p req _ hvp hne hlen
  · exact handle_success_of_fail_delete p req hv1p hdel
  · exact handle_reason_of_fail p req _ hvp hne hlen

/-- C5: for every Response whose reason is strictly longer than 200
characters before delivery, the delivered (truncated) reason is exactly
the first 200 characters of the original reason followed by the trailing
ellipsis marker (exactly 200 characters plus the marker); every reason of
at most 200 characters is delivered unmodified. -/
theorem claim5_truncation_exact (r : Response) (s : String)
    (h : r.Reason = some s) :
    (200 < s.length →
        (truncate_response r).Reason = some (takeChars s 200 ++ "...") ∧
        (takeChars s 200).length = 200 ∧
        ((truncate_response r).Reason.getD "").length = 203) ∧
    (s.length ≤ 200 → truncate_response r = r) := by
  constructor
  · intro hl
    have htake : (takeChars s 200).length = 200 := by
      rw [takeChars_length]
      omega
    refine ⟨truncate_long r s h hl, htake, ?_⟩
    rw [truncate_long r s h hl]
    simp only [Option.getD]
    rw [String.length_append, htake]
    rfl
  · intro hl
    unfold truncate_response
    rw [h]
    dsimp only
    by_cases hs : (s == "") = true
    · rw [if_pos hs]
    · rw [if_neg hs, if_neg (Nat.not_lt.mpr hl)]

set_option maxRecDepth 10000 in
/-- C4 counterexample: the claim states the delivered reason never exceeds
200 characters, but a cycle whose operation fails with a 201-character
reason delivers a truncated reason of 203 characters (200 preserved
characters plus the 3-character ellipsis marker); the cycle is delivered
(the asynchronous flag is false). -/
theorem claim4_cex :
    (handleState longFailProvider baseRequest).asynchronous = false ∧
    200 < ((handle longFailProvider baseRequest).Reason.getD "").length := by
  exact ⟨by decide, by decide⟩

/-- C4 (amended): for every delivered handling cycle (asynchronous flag
false), the delivered reason never exceeds 203 characters: a reason of at
most 200 characters is delivered unmodified, and a longer reason is
truncated to its first 200 characters followed by the 3-character
ellipsis marker. -/
theorem claim4_reason_bound (p : Provider) (req : Request)
    (ha : (handleState p req).asynchronous = false) :
    ((handle p req).Reason.getD "").length ≤ 203 ∧
    (200 < (((handleState p req).response.Reason.getD "").length) →
        (handle p req).Reason =
          some (takeChars ((handleState p req).response.Reason.getD "") 200 ++ "...")) ∧
    ((((handleState p req).response.Reason.getD "").length) ≤ 200 →
        (handle p req).Reason = (handleState p req).response.Reason) := by
  have hh : handle p req = truncate_response (handleState p req).response := by
    unfold handle
    simp only [ha, Bool.false_eq_true, if_false]
  refine ⟨?_, ?_, ?_⟩
  · rw [hh]
    exact truncate_len_le_203 _
  · intro hl
    cases h : (handleState p req).response.Reason with
    | none =>
      rw [h] at hl
      exact absurd hl (by decide)
    | some s =>
      rw [h] at hl
      simp only [Option.getD] at hl
      rw [hh]
      simp only [Option.getD]
      exact truncate_long _ s h hl
  · intro hl
    rw [hh]
    exact truncate_keep_short _ hl

/-- C6: when validation passes and the dispatched operation raises an
exception (modelled by the throw channel of the effect list), handle still
returns a Response (it is a total function of the request) and the
exception is caught, never re-raised: if the response status at the throw
point was still SUCCESS, the status becomes FAILED with the exception
message as reason (delivered verbatim when non-empty and within the
truncation bound); if it was already FAILED it stays FAILED. -/
theorem claim6_exception_caught (p : Provider) (req : Request)
    (hsup : is_supported_resource_type p req = true)
    (hcfn : cfn_request_schema_validate req = true)
    (hvp : p.valid_props req = true)
    (s' : PState) (e : String)
    (hrun : runEffects (selectOp p req req (set_request req))
        { response := set_request req, asynchronous := false } = (s', some e)) :
    (s'.response.Status = Status.SUCCESS →
        (handle p req).Status = Status.FAILED ∧
        (e ≠ "" → e.length ≤ 200 → (handle p req).Reason = some e)) ∧
    (s'.response.Status = Status.FAILED → (handle p req).Status = Status.FAILED) := by
  have hv : validation p req (set_request req) = (true, set_request req) :=
    validation_of_all_valid p req (set_request req) hsup hcfn hvp
  have hhs : handleState p req =
      { (if s'.response.Status == Status.SUCCESS
         then { s' with response := fail s'.response e } else s') with
        response := applyFinally req
          (if s'.response.Status == Status.SUCCESS
           then { s' with response := fail s'.response e } else s').response } := by
    simp [handleState, execute, hv, hrun]
  constructor
  · intro hst
    have hbeq : (s'.response.Status == Status.SUCCESS) = true := by
      rw [hst]
      rfl
    rw [hbeq] at hhs
    simp only [if_true] at hhs
    constructor
    · rw [handle_Status_eq, hhs]
      dsimp only
      rw [applyFinally_Status, fail_Status]
    · intro hne hlen
      refine handle_Reason_short p req e ?_ hlen
      rw [hhs]
      dsimp only
      rw [applyFinally_Reason, fail_Reason_of_ne _ _ hne]
  · intro hst
    have hbeq : (s'.response.Status == Status.SUCCESS) = false := by
      rw [hst]
      rfl
    rw [hbeq] at hhs
    simp only [Bool.false_eq_true, if_false] at hhs
    rw [handle_Status_eq, hhs]
    dsimp only
    rw [applyFinally_Status, hst]

namespace SnsEnvelope

theorem unwrapLoop_eq_map (p : Provider) (parse : String → Request)
    (recs : List SnsRecord) :
    unwrapLoop p parse recs =
      recs.map (fun r => ResourceProvider.handle p (parse (recordMessage r))) := by
  induction recs with
  | nil => rfl
  | cons r rest ih => simp [unwrapLoop, ih]

end SnsEnvelope

/-- C8: for every batch payload passing the SNS shape check with N
records, the envelope handler returns (does not throw) exactly the
responses obtained by parsing each record embedded message and forwarding
it to the wrapped handler, one call per record, in input order; in
particular there are exactly N of them. -/
theorem claim8_batch (p : Provider) (parse : String → Request) (e : SNSEvent)
    (presp : Response) (h : SnsEnvelope.sns_shape_valid e = true) :
    (SnsEnvelope.handle p parse e presp).2 =
      Except.ok ((e.Records.getD []).map
        (fun r => handle p (parse (SnsEnvelope.recordMessage r)))) ∧
    ((e.Records.getD []).map
        (fun r => handle p (parse (SnsEnvelope.recordMessage r)))).length =
      (e.Records.getD []).length := by
  constructor
  · simp [SnsEnvelope.handle, SnsEnvelope.is_valid_sns_request, h,
      SnsEnvelope.unwrapLoop_eq_map]
  · simp

/-- C9: for every batch payload failing the SNS shape check (no Records
array, or a record without the nested Sns.Message string), the envelope
handler produces no response sequence and raises a terminal error to its
caller, after marking the wrapped handler response as FAILED with the
diagnostic reason. -/
theorem claim9_malformed_batch (p : Provider) (parse : String → Request)
    (e : SNSEvent) (presp : Response)
    (h : SnsEnvelope.sns_shape_valid e = false) :
    (SnsEnvelope.handle p parse e presp).2 = Except.error SnsEnvelope.sns_error_msg ∧
    (SnsEnvelope.handle p parse e presp).1.Status = Status.FAILED ∧
    (SnsEnvelope.handle p parse e presp).1.Reason =
      some "invalid CloudFormation Request received: [object Object]" := by
  have hne : ("invalid CloudFormation Request received: [object Object]" : String) ≠ "" := by
    decide
  refine ⟨?_, ?_, ?_⟩ <;>
    simp [SnsEnvelope.handle, SnsEnvelope.is_valid_sns_request, h, fail_Status,
      fail_Reason_of_ne _ _ hne]

/-! ## Witnesses -/

/-- Witness for C1: the default-named provider with an all-rejecting
properties validator and a concrete Delete request. -/
theorem claim1_w :
    deleteRequest.RequestType = some "Delete" ∧
    vpFalseProvider.valid_props deleteRequest = false ∧
    (handle vpFalseProvider deleteRequest).Status = Status.SUCCESS :=
  ⟨rfl, rfl, claim1_delete_bypass vpFalseProvider deleteRequest rfl (Or.inr (Or.inr rfl))⟩

/-- Witness for C2: the jest Create request with an all-rejecting
properties validator ends FAILED with the sentinel physical id. -/
theorem claim2_w :
    (handle vpFalseProvider baseRequest).Status = Status.FAILED ∧
    (handle vpFalseProvider baseRequest).PhysicalResourceId = "could-not-create" :=
  (claim2_create_sentinel vpFalseProvider baseRequest rfl).2 rfl rfl

/-- Witness for C3 (amended) at the concrete mismatched Delete request. -/
theorem claim3_w :
    handle xProviderMarker mismatchDeleteRequest = handle xProvider mismatchDeleteRequest ∧
    (mismatchDeleteRequest.RequestType ≠ some "Delete" →
        (handle xProvider mismatchDeleteRequest).Status = Status.FAILED) ∧
    ((mismatch_reason xProvider mismatchDeleteRequest).length ≤ 200 →
        (handle xProvider mismatchDeleteRequest).Reason =
          some (mismatch_reason xProvider mismatchDeleteRequest)) ∧
    (mismatchDeleteRequest.RequestType = some "Delete" →
        (handle xProvider mismatchDeleteRequest).Status = Status.SUCCESS) :=
  claim3_mismatch xProvider xProviderMarker mismatchDeleteRequest rfl (by decide)

set_option maxRecDepth 10000 in
/-- Witness for C4 (amended) at the cycle that fails with a 201-character
reason. -/
theorem claim4_w :
    (handleState longFailProvider baseRequest).asynchronous = false ∧
    (((handle longFailProvider baseRequest).Reason.getD "").length ≤ 203 ∧
     (200 < (((handleState longFailProvider baseRequest).response.Reason.getD "").length) →
        (handle longFailProvider baseRequest).Reason =
          some (takeChars ((handleState longFailProvider baseRequest).response.Reason.getD "") 200 ++ "...")) ∧
     ((((handleState longFailProvider baseRequest).response.Reason.getD "").length) ≤ 200 →
        (handle longFailProvider baseRequest).Reason =
          (handleState longFailProvider baseRequest).response.Reason)) :=
  ⟨by decide, claim4_reason_bound longFailProvider baseRequest (by decide)⟩

/-- Witness for C5 at the response carrying the 201-character reason. -/
theorem claim5_w :
    longReasonResponse.Reason = some longReason ∧
    ((200 < longReason.length →
        (truncate_response longReasonResponse).Reason =
          some (takeChars longReason 200 ++ "...") ∧
        (takeChars longReason 200).length = 200 ∧
        ((truncate_response longReasonResponse).Reason.getD "").length = 203) ∧
     (longReason.length ≤ 200 →
        truncate_response longReasonResponse = longReasonResponse)) :=
  ⟨rfl, claim5_truncation_exact longReasonResponse longReason rfl⟩

/-- Witness for C6: the provider whose create throws after setting an
attribute, on the jest Create request. -/
theorem claim6_w :
    (handle throwingProvider baseRequest).Status = Status.FAILED ∧
    (handle throwingProvider baseRequest).Reason = some "Error: boom" := by
  have h := claim6_exception_caught throwingProvider baseRequest (by decide) (by decide)
      (by decide)
      (runEffects (selectOp throwingProvider baseRequest baseRequest (set_request baseRequest))
        { response := set_request baseRequest, asynchronous := false }).1
      "Error: boom" rfl
  exact ⟨(h.1 (by decide)).1, (h.1 (by decide)).2 (by decide) (by decide)⟩

/-- Witness for C8 at the two-record SNS event. -/
theorem claim8_w :
    SnsEnvelope.sns_shape_valid snsEventTwo = true ∧
    ((SnsEnvelope.handle rProvider parseFix snsEventTwo (set_request baseRequest)).2 =
      Except.ok ((snsEventTwo.Records.getD []).map
        (fun r => handle rProvider (parseFix (SnsEnvelope.recordMessage r)))) ∧
     ((snsEventTwo.Records.getD []).map
        (fun r => handle rProvider (parseFix (SnsEnvelope.recordMessage r)))).length =
      (snsEventTwo.Records.getD []).length) :=
  ⟨rfl, claim8_batch rProvider parseFix snsEventTwo (set_request baseRequest) rfl⟩

/-- Witness for C9 at the SNS event with no Records array. -/
theorem claim9_w :
    SnsEnvelope.sns_shape_valid snsEventNoRecords = false ∧
    ((SnsEnvelope.handle rProvider parseFix snsEventNoRecords (set_request baseRequest)).2 =
        Except.error SnsEnvelope.sns_error_msg ∧
     (SnsEnvelope.handle rProvider parseFix snsEventNoRecords (set_request baseRequest)).1.Status =
        Status.FAILED ∧
     (SnsEnvelope.handle rProvider parseFix snsEventNoRecords (set_request baseRequest)).1.Reason =
        some "invalid CloudFormation Request received: [object Object]") :=
  ⟨rfl, claim9_malformed_batch rProvider parseFix snsEventNoRecords (set_request baseRequest) rfl⟩

/-- Witness for C10 at a request whose callback address fails the http(s)
pattern (so the CloudFormation request schema rejects it). -/
theorem claim10_w :
    is_supported_resource_type rProvider badUrlRequest = true ∧
    cfn_request_schema_validate badUrlRequest = false ∧
    (handle rProviderMarker badUrlRequest = handle rProvider badUrlRequest ∧
     (badUrlRequest.RequestType ≠ some "Delete" →
        (handle rProvider badUrlRequest).Status = Status.FAILED ∧
        (handle rProvider badUrlRequest).Reason = some invalid_cfn_reason) ∧
     (badUrlRequest.RequestType = some "Delete" →
        (handle rProvider badUrlRequest).Status = Status.SUCCESS ∧
        (handle rProvider badUrlRequest).Reason = some invalid_cfn_reason)) :=
  ⟨by decide, by decide,
   claim10_cfn_schema_check rProvider rProviderMarker badUrlRequest rfl (by decide) (by decide)⟩

/-- C7: for every request and every operation kind (any provider), the
returned Response has its stack identifier, request identifier and logical
resource identifier equal to the corresponding fields of the input
Request; no step of the handling cycle alters them. -/
theorem claim7_identifiers_preserved (p : Provider) (req : Request) :
    (handle p req).StackId = req.StackId ∧
    (handle p req).RequestId = req.RequestId ∧
    (handle p req).LogicalResourceId = req.LogicalResourceId := by
  have h := execute_ids p req { response := set_request req, asynchronous := false }
  unfold handle handleState
  by_cases ha :
      (execute p req { response := set_request req, asynchronous := false }).asynchronous = true
  · simp only [ha, if_true]
    exact ⟨h.1, h.2.1, h.2.2⟩
  · simp only [ha, if_false, Bool.false_eq_true, truncate_StackId,
      truncate_RequestId, truncate_LogicalResourceId]
    exact ⟨h.1, h.2.1, h.2.2⟩

end CfnRp
